import Mathlib

/-!
Shallow embedding of `src/decode.py` from the PytorchWaveNetVocoder repository.

The script is a decoding (inference) driver: it parses command-line
arguments, configures logging, fixes random seeds, builds a WaveNet model,
normalizes per-utterance auxiliary features with a `StandardScaler`, runs
the autoregressive generator on each feature file and writes the resulting
waveform to a `.wav` file.

External capabilities the script merely calls (HDF5 reading, the WaveNet
generation kernel `fast_generate`, the mu-law codec from the `wavenet`
module, `torch.load`, file-system queries) are fields of an `Env` record:
the script's orchestration is the object of study, the numerics are opaque
parameters.  Python-level effects that matter to the claims (seeding,
`torch.load`, model construction, `os.makedirs`, generation, `sf.write`)
are recorded in an event trace.  `os.makedirs` keeps its standard-library
semantics: called on an existing path (with the default `exist_ok=False`)
it raises `FileExistsError`.
-/

namespace DecodeScript

/-- Log levels used by `logging.basicConfig` in the script. -/
inductive LogLevel
  | debug
  | info
  | warn
  deriving Repr, DecidableEq

/-- The command-line arguments of `decode.py` (`argparse` section, lines
58-77).  `fs`, `seed` and `verbose` are `type=int`; the rest are strings. -/
structure Args where
  feats : String
  checkpoint : String
  config : String
  stats : String
  outdir : String
  fs : Int
  seed : Int
  verbose : Int
  deriving Repr, DecidableEq

/-- The fields of the configuration object `torch.load(args.config)` that
the script reads when constructing the WaveNet. -/
structure WNConfig where
  n_quantize : Int
  n_aux : Int
  n_resch : Int
  n_skipch : Int
  dilation_depth : Int
  dilation_repeat : Int
  kernel_size : Int
  deriving Repr, DecidableEq

/-- A 2-D array (numpy array / torch tensor without the batch dimension).
The shape is carried explicitly, as torch does: `nrows × ncols`,
`data` being the list of rows. -/
structure Mat where
  nrows : Nat
  ncols : Nat
  data : List (List ℚ)
  deriving Repr, DecidableEq

/-- Shape/contents agreement for a `Mat`. -/
def Mat.WF (m : Mat) : Prop :=
  m.data.length = m.nrows ∧ ∀ r ∈ m.data, r.length = m.ncols

instance (m : Mat) : Decidable m.WF := by
  unfold Mat.WF
  infer_instance

/-- `torch.Tensor.transpose(0, 1)` on a 2-D tensor: the shape is swapped and
entry `(i, j)` of the result is entry `(j, i)` of the argument. -/
def Mat.transpose (m : Mat) : Mat :=
  { nrows := m.ncols
    ncols := m.nrows
    data := (List.range m.ncols).map (fun j => m.data.map (fun row => row.getD j 0)) }

/-- The state of the WaveNet model's parameters.  `fresh` is the state right
after `model = WaveNet(...)` under `torch.manual_seed(seed)`: freshly
initialized weights.  `loaded` would be the state after loading a
checkpoint file into the model — the script contains no code producing it. -/
inductive ModelParams
  | fresh (seed : Int) (cfg : WNConfig)
  | loaded (checkpointPath : String)
  deriving Repr, DecidableEq

/-- A Python value flowing through the waveform slot of the generator: the
numpy array `np.zeros((1))`, or the cuda `LongTensor` produced by the
`wav_transform` (mu-law codes). -/
inductive PyVal
  | npArr (xs : List ℚ)
  | longTensor (xs : List Int)
  deriving Repr, DecidableEq

/-- Observable effects of a run of the script, in program order. -/
inductive Event
  | logConfigured (lvl : LogLevel)
  | setEnvVar (name value : String)
  | npSeed (s : Int)
  | torchSeed (s : Int)
  | torchLoad (path : String)
  | constructModel (params : ModelParams)
  | cudaMove
  | makedirs (path : String)
  | generate (feat_id : String) (params : ModelParams) (x : PyVal) (h : Mat) (n_samples : Int)
  | writeWav (path : String) (wav : List ℚ) (fs : Int)
  deriving Repr, DecidableEq

/-- The ways a run of the script can abort: `sys.exit(1)` at the GPU check,
or the `FileExistsError` that `os.makedirs` raises on an existing path. -/
inductive PyErr
  | sysExit (code : Int)
  | fileExistsError (path : String)
  deriving Repr, DecidableEq

/-- The externals the script calls: file-system queries, HDF5 reading, the
config loader, the mu-law codec and the generation kernel from the
`wavenet` module, and GPU availability.  They are opaque to the script. -/
structure Env where
  gpuAvailable : Bool
  isDir : String → Bool
  pathExists : String → Bool
  /-- the recursive file listing of a directory, as seen by `find_files` -/
  dirFiles : String → List String
  /-- the lines of a text file, as returned by `read_txt` -/
  txtLines : String → List String
  /-- `read_hdf5 file key` for 2-D datasets (`/feat`) -/
  h5mat : String → String → Mat
  /-- `read_hdf5 file key` for 1-D datasets (`/mean`, `/scale`, `/speaker_code`) -/
  h5vec : String → String → List ℚ
  /-- `torch.load` applied to the `--config` file -/
  loadConfig : String → WNConfig
  /-- `encode_mu_law(x, n_quantize)` from the `wavenet` module -/
  encodeMuLaw : List ℚ → Int → List Int
  /-- `decode_mu_law(samples, n_quantize)` from the `wavenet` module -/
  decodeMuLaw : List Int → Int → List ℚ
  /-- `model.fast_generate(x, h, n_samples)`: depends on the model's
  parameters, the waveform seed, the aux features and the sample count -/
  fastGenerate : ModelParams → PyVal → Mat → Int → List Int

/-- The log-level selection of lines 80-92: `if args.verbose > 0` configures
INFO; `elif args.verbose > 1` configures DEBUG; `else` configures WARN. -/
def logLevelOf (verbose : Int) : LogLevel :=
  if verbose > 0 then LogLevel.info
  else if verbose > 1 then LogLevel.debug
  else LogLevel.warn

/-- `os.path.basename`: the component after the last `/`. -/
def basename (p : String) : String :=
  (p.splitOn "/").getLastD p

/-- `os.path.basename(featfile).replace(".h5", "")` (line 52).  Python's
`str.replace` removes every occurrence of `".h5"`, which
`String.replace` matches. -/
def featIdOf (featfile : String) : String :=
  (basename featfile).replace ".h5" ""

/-- Modelled from the spec: `find_files` lives in `utils`, which is not under
`src/`.  Per the spec's "directory scanning" and its use at line 134
(`find_files(args.feats, "*.h5")`), it returns the files found under the
directory that match the pattern `*.h5`, i.e. whose name ends in `.h5`. -/
def find_files (env : Env) (dir : String) : List String :=
  (env.dirFiles dir).filter (fun f => f.endsWith ".h5")

/-- Modelled from the spec: `read_txt` lives in `utils`, which is not under
`src/`.  Per its use at line 136 on a "list ... of aux feat files", it
returns the lines of the text file. -/
def read_txt (env : Env) (p : String) : List String :=
  env.txtLines p

/-- Insert a string into a (sorted) list of strings, keeping order. -/
def insertSorted (s : String) : List String → List String
  | [] => [s]
  | t :: ts => if s ≤ t then s :: t :: ts else t :: insertSorted s ts

/-- Python's `sorted` on a list of strings: lexicographic order (insertion
sort; `sorted` is stable, and insertion sort is stable). -/
def sortStrings : List String → List String
  | [] => []
  | s :: ss => insertSorted s (sortStrings ss)

/-- Lines 133-136: `feat_list = sorted(find_files(args.feats, "*.h5"))` when
`--feats` is a directory, else `feat_list = read_txt(args.feats)`. -/
def featListOf (env : Env) (feats : String) : List String :=
  if env.isDir feats then sortStrings (find_files env feats)
  else read_txt env feats

/-- `sklearn.preprocessing.StandardScaler.transform` with `mean_` and
`scale_` set directly (lines 120-122): each row of `X` becomes
`(row - mean_) / scale_` componentwise. -/
def scalerTransform (mean scale : List ℚ) (m : Mat) : Mat :=
  { m with
    data := m.data.map (fun row =>
      List.zipWith (· / ·) (List.zipWith (· - ·) row mean) scale) }

/-- `np.tile(sc, [h.shape[0], 1])` followed by `np.concatenate([h, sc], axis=1)`
(lines 39-41): every row of `h` is extended by the speaker-code vector. -/
def concatSpeakerCode (h : Mat) (sc : List ℚ) : Mat :=
  { nrows := h.nrows
    ncols := h.ncols + sc.length
    data := h.data.map (fun row => row ++ sc) }

/-- The body of `decode_generator` for one feature file (lines 35-54):
`x = np.zeros((1))`; `h` is read from the file; the speaker code is
optionally appended; the optional transforms are applied; `h` is
transposed; `n_samples = h.size(2) - 1` (the batch dimension added by
`unsqueeze(0)` is implicit: `size(2)` of the `(1, D, T)` tensor is the
column count of the transposed 2-D matrix). -/
def decodeItem (env : Env)
    (wav_transform : Option (List ℚ → List Int))
    (feat_transform : Option (Mat → Mat))
    (use_speaker_code : Bool) (featfile : String) :
    String × PyVal × Mat × Int :=
  let x : List ℚ := [0]
  let h0 := env.h5mat featfile "/feat"
  let h1 := if use_speaker_code then
      concatSpeakerCode h0 (env.h5vec featfile "/speaker_code")
    else h0
  let xv : PyVal := match wav_transform with
    | some f => PyVal.longTensor (f x)
    | none => PyVal.npArr x
  let h2 := match feat_transform with
    | some f => f h1
    | none => h1
  let h3 := h2.transpose
  let n_samples : Int := (h3.ncols : Int) - 1
  (featIdOf featfile, xv, h3, n_samples)

/-- `decode_generator` (lines 21-54): one yielded item per file of
`feat_list`, in order. -/
def decode_generator (env : Env) (feat_list : List String)
    (wav_transform : Option (List ℚ → List Int))
    (feat_transform : Option (Mat → Mat))
    (use_speaker_code : Bool) :
    List (String × PyVal × Mat × Int) :=
  feat_list.map (decodeItem env wav_transform feat_transform use_speaker_code)

/-- The `@background(max_prefetch=1)` decorator applied to `decode_generator`
at line 21.  `some n` records that the script wraps the generator in the
background prefetch mechanism from `utils` with `max_prefetch = n`
(a producer thread feeding a bounded queue); `none` would mean the
generator is not wrapped by any such mechanism. -/
def backgroundDecoratorMaxQueue : Option Nat := some 1

/-- The `wav_transform` built at lines 123-126: `encode_mu_law(x, n_quantize)`
then conversion to a cuda `LongTensor` wrapped in a `Variable` (the latter
two steps do not change the values). -/
def wavTransformMain (env : Env) (nq : Int) : List ℚ → List Int :=
  fun x => env.encodeMuLaw x nq

/-- The `feat_transform` built at lines 127-130: `scaler.transform` with
`mean_`/`scale_` read from the stats file, then conversion to a cuda
`FloatTensor` wrapped in a `Variable` (value-preserving). -/
def featTransformMain (mean scale : List ℚ) : Mat → Mat :=
  fun m => scalerTransform mean scale m

/-- The outcome of a run: the trace of events that happened, and the error
that ended the run (`none` when the script ran to completion). -/
structure RunOutcome where
  events : List Event
  error : Option PyErr
  deriving Repr, DecidableEq

/-- The events of the decode loop (lines 144-148) for one generator item:
`samples = model.fast_generate(x, h, n_samples)`;
`wav = decode_mu_law(samples, config.n_quantize)`;
`sf.write(args.outdir + "/" + feat_id + ".wav", wav, args.fs, "PCM_16")`. -/
def decodeLoopEvents (env : Env) (args : Args) (params : ModelParams) (nq : Int)
    (item : String × PyVal × Mat × Int) : List Event :=
  match item with
  | (feat_id, x, h, n_samples) =>
    let samples := env.fastGenerate params x h n_samples
    let wav := env.decodeMuLaw samples nq
    [Event.generate feat_id params x h n_samples,
     Event.writeWav (args.outdir ++ "/" ++ feat_id ++ ".wav") wav args.fs]

/-- The `__main__` block of `decode.py` (lines 57-148), as a function of the
parsed arguments and the environment.  In program order: log level setup;
seed fixing (`PYTHONHASHSEED`, `np.random.seed`, `torch.manual_seed`);
`config = torch.load(args.config)`; model construction (note: nothing is
ever loaded from `args.checkpoint`); the GPU check (`sys.exit(1)` if no
GPU); scaler and transform setup; feature-list construction; the
`if os.path.exists(args.outdir): os.makedirs(args.outdir)` check, where
`os.makedirs` on the existing path raises `FileExistsError`; the decode
loop. -/
def run (env : Env) (args : Args) : RunOutcome :=
  let lvl := logLevelOf args.verbose
  let cfg := env.loadConfig args.config
  let params := ModelParams.fresh args.seed cfg
  let pre : List Event :=
    [Event.logConfigured lvl,
     Event.setEnvVar "PYTHONHASHSEED" (toString args.seed),
     Event.npSeed args.seed,
     Event.torchSeed args.seed,
     Event.torchLoad args.config,
     Event.constructModel params]
  if env.gpuAvailable = false then
    { events := pre, error := some (PyErr.sysExit 1) }
  else
    let mean := env.h5vec args.stats "/mean"
    let scale := env.h5vec args.stats "/scale"
    let feat_list := featListOf env args.feats
    let items := decode_generator env feat_list
        (some (wavTransformMain env cfg.n_quantize))
        (some (featTransformMain mean scale)) false
    if env.pathExists args.outdir then
      { events := pre ++ [Event.cudaMove, Event.makedirs args.outdir]
        error := some (PyErr.fileExistsError args.outdir) }
    else
      { events := pre ++ [Event.cudaMove]
          ++ items.flatMap (decodeLoopEvents env args params cfg.n_quantize)
        error := none }

/-- Projection selecting the `torch.load` events of a trace. -/
def loadPathOf : Event → Option String
  | Event.torchLoad p => some p
  | _ => none

/-- Projection selecting the model parameters used at each generation call. -/
def genParamsOf : Event → Option ModelParams
  | Event.generate _ params _ _ _ => some params
  | _ => none

/-- Projection selecting the utterance id of each generation call. -/
def genFeatIdOf : Event → Option String
  | Event.generate feat_id _ _ _ _ => some feat_id
  | _ => none

instance : Inhabited PyVal := ⟨PyVal.npArr []⟩

instance : Inhabited Mat := ⟨⟨0, 0, []⟩⟩

/-- A concrete configuration for evaluating the embedding. -/
def testCfg : WNConfig :=
  { n_quantize := 256, n_aux := 28, n_resch := 512, n_skipch := 256
    dilation_depth := 10, dilation_repeat := 3, kernel_size := 2 }

/-- A concrete environment for evaluating the embedding: a GPU is available,
`featdir` is the only directory, `existingdir` is the only existing path,
and the external numerics are simple computable stand-ins. -/
def testEnv : Env where
  gpuAvailable := true
  isDir := fun d => d == "featdir"
  pathExists := fun p => p == "existingdir"
  dirFiles := fun d =>
    if d == "featdir" then ["featdir/b.h5", "featdir/a.h5", "featdir/notes.txt"] else []
  txtLines := fun p => if p == "flist.txt" then ["data/a.h5"] else []
  h5mat := fun _ k => if k == "/feat" then ⟨2, 2, [[1, 2], [3, 4]]⟩ else ⟨0, 0, []⟩
  h5vec := fun _ k =>
    if k == "/mean" then [1, 1] else if k == "/scale" then [2, 2] else []
  loadConfig := fun _ => testCfg
  encodeMuLaw := fun xs _ => xs.map (fun _ => 128)
  decodeMuLaw := fun xs _ => xs.map (fun i => (i : ℚ))
  fastGenerate := fun _ _ _ n => List.replicate n.toNat 7

/-- Concrete arguments: `--feats` is a file list. -/
def testArgs : Args :=
  { feats := "flist.txt", checkpoint := "ckpt.pkl", config := "cfg.pkl"
    stats := "stats.h5", outdir := "out", fs := 16000, seed := 1, verbose := 1 }

/-- Concrete arguments: `--feats` is a directory. -/
def testArgsDir : Args := { testArgs with feats := "featdir" }

/-- Concrete arguments: `--outdir` is a path that already exists. -/
def testArgsOutExists : Args := { testArgs with outdir := "existingdir" }

/-! ### Helper lemmas -/

/-- Evaluation of `run` on the branch where a GPU is available and the output
directory does not yet exist: the preamble events, `cuda`, then the decode
loop over the feature list; the run finishes without error. -/
theorem run_success (env : Env) (args : Args)
    (hgpu : env.gpuAvailable = true) (hout : env.pathExists args.outdir = false) :
    run env args =
      { events :=
          [Event.logConfigured (logLevelOf args.verbose),
           Event.setEnvVar "PYTHONHASHSEED" (toString args.seed),
           Event.npSeed args.seed,
           Event.torchSeed args.seed,
           Event.torchLoad args.config,
           Event.constructModel (ModelParams.fresh args.seed (env.loadConfig args.config)),
           Event.cudaMove]
          ++ (decode_generator env (featListOf env args.feats)
               (some (wavTransformMain env (env.loadConfig args.config).n_quantize))
               (some (featTransformMain (env.h5vec args.stats "/mean")
                 (env.h5vec args.stats "/scale")))
               false).flatMap
             (decodeLoopEvents env args
               (ModelParams.fresh args.seed (env.loadConfig args.config))
               (env.loadConfig args.config).n_quantize)
        error := none } := by
  simp [run, hgpu, hout]

/-- The decode-loop events contain no `torch.load`. -/
theorem no_torchLoad_in_decodeLoop (env : Env) (args : Args) (params : ModelParams)
    (nq : Int) (items : List (String × PyVal × Mat × Int)) :
    (items.flatMap (decodeLoopEvents env args params nq)).filterMap loadPathOf = [] := by
  rw [List.filterMap_eq_nil_iff]
  intro e he
  rw [List.mem_flatMap] at he
  obtain ⟨it, _, he⟩ := he
  simp only [decodeLoopEvents, List.mem_cons, List.not_mem_nil, or_false] at he
  rcases he with rfl | rfl <;> rfl

/-- Every generation call in the decode loop uses the given parameters. -/
theorem genParams_in_decodeLoop (env : Env) (args : Args) (params : ModelParams)
    (nq : Int) (items : List (String × PyVal × Mat × Int)) (p : ModelParams)
    (hp : p ∈ (items.flatMap (decodeLoopEvents env args params nq)).filterMap genParamsOf) :
    p = params := by
  rw [List.mem_filterMap] at hp
  obtain ⟨e, he, hpe⟩ := hp
  rw [List.mem_flatMap] at he
  obtain ⟨it, _, he⟩ := he
  simp only [decodeLoopEvents, List.mem_cons, List.not_mem_nil, or_false] at he
  rcases he with rfl | rfl
  · simp only [genParamsOf, Option.some.injEq] at hpe
    exact hpe.symm
  · exact absurd hpe (by simp [genParamsOf])

/-! ### Claim theorems -/

/-- C9: the DEBUG logging branch is unreachable: for every integer `--verbose`
value the configured level is INFO when `verbose > 0` and WARN otherwise,
and the level is never DEBUG. -/
theorem c9_debug_branch_unreachable (v : Int) :
    logLevelOf v = (if v > 0 then LogLevel.info else LogLevel.warn) ∧
    logLevelOf v ≠ LogLevel.debug := by
  unfold logLevelOf
  by_cases h : v > 0
  · simp [h]
  · have h1 : ¬ v > 1 := by omega
    simp [h, h1]

/-- C7: for every run, the first six events are exactly: logging
configuration, then setting `PYTHONHASHSEED`, NumPy's seed and torch's
manual seed to `args.seed`, then `torch.load` of the config, then model
construction.  Hence all three seeds are fixed before the model is
constructed, and before any decoding (no `generate` event is among these
six). -/
theorem c7_seeds_fixed_first (env : Env) (args : Args) :
    (run env args).events.take 6 =
      [Event.logConfigured (logLevelOf args.verbose),
       Event.setEnvVar "PYTHONHASHSEED" (toString args.seed),
       Event.npSeed args.seed,
       Event.torchSeed args.seed,
       Event.torchLoad args.config,
       Event.constructModel (ModelParams.fresh args.seed (env.loadConfig args.config))] := by
  cases hg : env.gpuAvailable <;> cases hp : env.pathExists args.outdir <;>
    simp [run, hg, hp]

/-- C3 (code bug): whenever a GPU is available but the output directory
already exists, the run aborts with the `FileExistsError` raised by
`os.makedirs` on the existing path — a failure path other than the GPU
check. -/
theorem c3_second_failure_path (env : Env) (args : Args)
    (hgpu : env.gpuAvailable = true) (hout : env.pathExists args.outdir = true) :
    (run env args).error = some (PyErr.fileExistsError args.outdir) ∧
    (run env args).error ≠ some (PyErr.sysExit 1) := by
  simp [run, hgpu, hout]

/-- Witness for C3 at a concrete environment and arguments. -/
theorem c3_second_failure_path_witness :
    testEnv.gpuAvailable = true ∧
    testEnv.pathExists testArgsOutExists.outdir = true ∧
    (run testEnv testArgsOutExists).error
      = some (PyErr.fileExistsError testArgsOutExists.outdir) :=
  ⟨rfl, by decide,
   (c3_second_failure_path testEnv testArgsOutExists rfl (by decide)).1⟩

/-- C8: given a GPU, `os.makedirs(args.outdir)` is invoked iff `args.outdir`
already exists at startup; when it does not exist, no `makedirs` call of
any path happens in the whole run (in particular none before the wav
writes). -/
theorem c8_makedirs_iff_outdir_exists (env : Env) (args : Args)
    (hgpu : env.gpuAvailable = true) :
    (Event.makedirs args.outdir ∈ (run env args).events ↔
      env.pathExists args.outdir = true) ∧
    (env.pathExists args.outdir = false →
      ∀ p, Event.makedirs p ∉ (run env args).events) := by
  cases hp : env.pathExists args.outdir
  · rw [run_success env args hgpu hp]
    constructor
    · simp only [Bool.false_eq_true, iff_false]
      intro hmem
      simp only [List.mem_append, List.mem_cons, List.mem_singleton,
        List.mem_flatMap] at hmem
      rcases hmem with h | ⟨f, _, h⟩
      · simp at h
      · simp only [decodeLoopEvents, List.mem_cons, List.mem_singleton] at h
        rcases h with h | h <;> exact absurd h (by simp)
    · intro _ p hmem
      simp only [List.mem_append, List.mem_cons, List.mem_singleton,
        List.mem_flatMap] at hmem
      rcases hmem with h | ⟨f, _, h⟩
      · simp at h
      · simp only [decodeLoopEvents, List.mem_cons, List.mem_singleton] at h
        rcases h with h | h <;> exact absurd h (by simp)
  · constructor
    · simp [run, hgpu, hp]
    · intro hfalse
      exact absurd hfalse (by simp)

/-- C1 (code bug): nothing is ever loaded from `--checkpoint`: in every run,
the only `torch.load` event is for `args.config`, and every generation
call uses the freshly initialized model parameters — never parameters
loaded from `args.checkpoint` (or from any file). -/
theorem c1_checkpoint_never_loaded (env : Env) (args : Args) :
    (run env args).events.filterMap loadPathOf = [args.config] ∧
    ∀ p ∈ (run env args).events.filterMap genParamsOf,
      p = ModelParams.fresh args.seed (env.loadConfig args.config) ∧
      ∀ path, p ≠ ModelParams.loaded path := by
  cases hg : env.gpuAvailable
  · constructor
    · simp [run, hg, loadPathOf]
    · intro p hp
      simp [run, hg, genParamsOf] at hp
  · cases hp2 : env.pathExists args.outdir
    · rw [run_success env args hg hp2]
      constructor
      · rw [List.filterMap_append, no_torchLoad_in_decodeLoop, List.append_nil]
        simp [loadPathOf]
      · intro p hp
        rw [List.filterMap_append, List.mem_append] at hp
        rcases hp with hp | hp
        · simp [genParamsOf] at hp
        · have hpeq := genParams_in_decodeLoop env args _ _ _ p hp
          subst hpeq
          exact ⟨rfl, fun path h => by cases h⟩
    · constructor
      · simp [run, hg, hp2, loadPathOf]
      · intro p hp
        simp [run, hg, hp2, genParamsOf] at hp

/-- Witness for C1 at a concrete environment and arguments: the parameters
used by the generation call for the single utterance of the run are the
fresh ones. -/
theorem c1_checkpoint_never_loaded_witness :
    (run testEnv testArgs).events.filterMap loadPathOf = [testArgs.config] ∧
    ModelParams.fresh 1 testCfg
      = ModelParams.fresh testArgs.seed (testEnv.loadConfig testArgs.config) :=
  ⟨(c1_checkpoint_never_loaded testEnv testArgs).1,
   ((c1_checkpoint_never_loaded testEnv testArgs).2
     (ModelParams.fresh 1 testCfg) (by decide)).1⟩

/-- Witness for C8 at a concrete environment and arguments. -/
theorem c8_makedirs_iff_outdir_exists_witness :
    testEnv.gpuAvailable = true ∧
    (Event.makedirs testArgsOutExists.outdir ∈ (run testEnv testArgsOutExists).events ↔
      testEnv.pathExists testArgsOutExists.outdir = true) :=
  ⟨rfl, (c8_makedirs_iff_outdir_exists testEnv testArgsOutExists rfl).1⟩

/-- The utterance ids generated by the decode loop, in order: one per
feature file, in feature-list order. -/
theorem genFeatIds_of_decodeLoop (env : Env) (args : Args) (params : ModelParams) (nq : Int)
    (wavT : Option (List ℚ → List Int)) (featT : Option (Mat → Mat)) (usc : Bool)
    (l : List String) :
    ((decode_generator env l wavT featT usc).flatMap
      (decodeLoopEvents env args params nq)).filterMap genFeatIdOf
      = l.map featIdOf := by
  induction l with
  | nil => rfl
  | cons f fs ih =>
    simp only [decode_generator, List.map_cons, List.flatMap_cons,
      List.filterMap_append] at ih ⊢
    rw [ih]
    rfl

/-- In a run that reaches the decode loop, the sequence of decoded utterance
ids is the feature list, in order. -/
theorem run_genFeatIds (env : Env) (args : Args)
    (hgpu : env.gpuAvailable = true) (hout : env.pathExists args.outdir = false) :
    (run env args).events.filterMap genFeatIdOf
      = (featListOf env args.feats).map featIdOf := by
  rw [run_success env args hgpu hout]
  rw [List.filterMap_append, genFeatIds_of_decodeLoop]
  simp [genFeatIdOf]

/-- Membership in `insertSorted`. -/
theorem mem_insertSorted (s t : String) (l : List String) :
    t ∈ insertSorted s l ↔ t = s ∨ t ∈ l := by
  induction l with
  | nil => simp [insertSorted]
  | cons a as ih =>
    by_cases h : s ≤ a
    · simp only [insertSorted, h, if_true, List.mem_cons]
    · simp only [insertSorted, h, if_false, List.mem_cons, ih]
      tauto

/-- Inserting into a sorted list of strings keeps it sorted. -/
theorem sorted_insertSorted (s : String) (l : List String)
    (h : l.Sorted (· ≤ ·)) : (insertSorted s l).Sorted (· ≤ ·) := by
  induction l with
  | nil => simp [insertSorted]
  | cons a as ih =>
    rw [List.sorted_cons] at h
    obtain ⟨ha, has⟩ := h
    by_cases hs : s ≤ a
    · simp only [insertSorted, hs, if_true]
      rw [List.sorted_cons]
      refine ⟨?_, ?_⟩
      · intro b hb
        rcases List.mem_cons.mp hb with rfl | hb
        · exact hs
        · exact le_trans hs (ha b hb)
      · rw [List.sorted_cons]
        exact ⟨ha, has⟩
    · simp only [insertSorted, hs, if_false]
      rw [List.sorted_cons]
      refine ⟨?_, ih has⟩
      intro b hb
      rcases (mem_insertSorted s b as).mp hb with rfl | hb
      · exact le_of_not_le hs
      · exact ha b hb

/-- `insertSorted` permutes a cons. -/
theorem insertSorted_perm (s : String) (l : List String) :
    List.Perm (insertSorted s l) (s :: l) := by
  induction l with
  | nil => rfl
  | cons a as ih =>
    by_cases h : s ≤ a
    · simp [insertSorted, h]
    · simp only [insertSorted, h, if_false]
      exact List.Perm.trans (List.Perm.cons a ih) (List.Perm.swap s a as)

/-- `sortStrings` produces a sorted list. -/
theorem sorted_sortStrings (l : List String) : (sortStrings l).Sorted (· ≤ ·) := by
  induction l with
  | nil => simp [sortStrings]
  | cons s ss ih => exact sorted_insertSorted s _ ih

/-- `sortStrings` permutes its input. -/
theorem sortStrings_perm (l : List String) : List.Perm (sortStrings l) l := by
  induction l with
  | nil => rfl
  | cons s ss ih =>
    exact List.Perm.trans (insertSorted_perm s _) (List.Perm.cons s ih)

/-- C4 counterexample: the claim that the script's own code introduces no
thread or prefetch mechanism is false — `decode_generator` is wrapped by
the `@background(max_prefetch=1)` prefetch decorator at line 21. -/
theorem c4_no_prefetch_refuted : backgroundDecoratorMaxQueue ≠ none := by
  decide

/-- C4 (amended): the decode loop itself is a single sequential pass, the
decoded utterances being exactly the feature list in order, one per file;
but the script wraps the feature-loading generator in the background
prefetch decorator with `max_prefetch = 1` (one producer thread, a
one-item queue). -/
theorem c4_sequential_loop_with_background (env : Env) (args : Args)
    (hgpu : env.gpuAvailable = true) (hout : env.pathExists args.outdir = false) :
    (run env args).events.filterMap genFeatIdOf
      = (featListOf env args.feats).map featIdOf ∧
    backgroundDecoratorMaxQueue = some 1 :=
  ⟨run_genFeatIds env args hgpu hout, rfl⟩

/-- Witness for C4 (amended) at a concrete environment and arguments. -/
theorem c4_sequential_loop_with_background_witness :
    testEnv.gpuAvailable = true ∧ testEnv.pathExists testArgs.outdir = false ∧
    (run testEnv testArgs).events.filterMap genFeatIdOf
      = (featListOf testEnv testArgs.feats).map featIdOf :=
  ⟨rfl, by decide, (c4_sequential_loop_with_background testEnv testArgs rfl (by decide)).1⟩

/-- C6: in a run that reaches the decode loop, if `--feats` is a directory
the decoded utterances are exactly the `*.h5` files under it, in sorted
(lexicographic) order — the processed list is sorted and is a permutation
of the directory's `.h5` files; otherwise `--feats` is read as a text file
and its lines are processed in file order. -/
theorem c6_feat_scanning (env : Env) (args : Args)
    (hgpu : env.gpuAvailable = true) (hout : env.pathExists args.outdir = false) :
    (env.isDir args.feats = true →
      (run env args).events.filterMap genFeatIdOf
        = (sortStrings ((env.dirFiles args.feats).filter
            (fun f => f.endsWith ".h5"))).map featIdOf ∧
      (sortStrings ((env.dirFiles args.feats).filter
          (fun f => f.endsWith ".h5"))).Sorted (· ≤ ·) ∧
      List.Perm
        (sortStrings ((env.dirFiles args.feats).filter (fun f => f.endsWith ".h5")))
        ((env.dirFiles args.feats).filter (fun f => f.endsWith ".h5"))) ∧
    (env.isDir args.feats = false →
      (run env args).events.filterMap genFeatIdOf
        = (env.txtLines args.feats).map featIdOf) := by
  constructor
  · intro hdir
    refine ⟨?_, sorted_sortStrings _, sortStrings_perm _⟩
    rw [run_genFeatIds env args hgpu hout]
    simp [featListOf, hdir, find_files]
  · intro hdir
    rw [run_genFeatIds env args hgpu hout]
    simp [featListOf, hdir, read_txt]

/-- Witness for C6 at a concrete environment whose `--feats` is a directory
containing two `.h5` files (unsorted) and one other file. -/
theorem c6_feat_scanning_witness :
    testEnv.gpuAvailable = true ∧ testEnv.pathExists testArgsDir.outdir = false ∧
    testEnv.isDir testArgsDir.feats = true ∧
    (run testEnv testArgsDir).events.filterMap genFeatIdOf
      = (sortStrings ((testEnv.dirFiles testArgsDir.feats).filter
          (fun f => f.endsWith ".h5"))).map featIdOf :=
  ⟨rfl, by decide, by decide,
   ((c6_feat_scanning testEnv testArgsDir rfl (by decide)).1 (by decide)).1⟩

/-- `getD` through `map`, inside the bounds. -/
theorem getD_map_of_lt (f : List ℚ → List ℚ) (l : List (List ℚ)) (i : Nat)
    (hi : i < l.length) : (l.map f).getD i [] = f (l.getD i []) := by
  rw [List.getD_eq_getElem l [] hi,
      List.getD_eq_getElem (l.map f) [] (by simpa using hi)]
  simp

/-- `getD` through `zipWith`, inside the bounds. -/
theorem getD_zipWith_of_lt (f : ℚ → ℚ → ℚ) (as bs : List ℚ) (j : Nat)
    (ha : j < as.length) (hb : j < bs.length) :
    (List.zipWith f as bs).getD j 0 = f (as.getD j 0) (bs.getD j 0) := by
  rw [List.getD_eq_getElem _ 0 (by rw [List.length_zipWith]; omega),
      List.getD_eq_getElem as 0 ha, List.getD_eq_getElem bs 0 hb]
  exact List.getElem_zipWith ..

/-- The entries of `scalerTransform`: each in-bounds entry has the column
mean subtracted and is divided by the column scale. -/
theorem scalerTransform_entry (mean scale : List ℚ) (m : Mat) (i j : Nat)
    (hi : i < m.data.length) (hj1 : j < (m.data.getD i []).length)
    (hj2 : j < mean.length) (hj3 : j < scale.length) :
    ((scalerTransform mean scale m).data.getD i []).getD j 0
      = ((m.data.getD i []).getD j 0 - mean.getD j 0) / scale.getD j 0 := by
  unfold scalerTransform
  rw [getD_map_of_lt _ _ _ hi]
  rw [getD_zipWith_of_lt _ _ _ _ (by rw [List.length_zipWith]; omega) hj3,
      getD_zipWith_of_lt _ _ _ _ hj1 hj2]

/-- The generator item built for a feature file is among the decode events of
a successful run: the `generate` and `writeWav` events for that file are
in the trace. -/
theorem decodeItem_events_mem (env : Env) (args : Args)
    (hgpu : env.gpuAvailable = true) (hout : env.pathExists args.outdir = false)
    (featfile : String) (hf : featfile ∈ featListOf env args.feats)
    (e : Event)
    (he : e ∈ decodeLoopEvents env args
      (ModelParams.fresh args.seed (env.loadConfig args.config))
      (env.loadConfig args.config).n_quantize
      (decodeItem env
        (some (wavTransformMain env (env.loadConfig args.config).n_quantize))
        (some (featTransformMain (env.h5vec args.stats "/mean")
          (env.h5vec args.stats "/scale")))
        false featfile)) :
    e ∈ (run env args).events := by
  rw [run_success env args hgpu hout, List.mem_append]
  right
  rw [List.mem_flatMap]
  exact ⟨_, List.mem_map_of_mem _ hf, he⟩

/-- C2: every run that reaches the decode loop finishes without error, and
for every file of the feature list the trace contains the wav write whose
path is `outdir/<feat_id>.wav` and whose contents are exactly the
pipeline: the `/feat` matrix standardized by the scaler and transposed,
fed together with the mu-law-encoded zero seed to `fast_generate` for
`size(2) - 1` samples, whose integer samples are decoded by
`decode_mu_law`. -/
theorem c2_pipeline_per_file (env : Env) (args : Args)
    (hgpu : env.gpuAvailable = true) (hout : env.pathExists args.outdir = false)
    (featfile : String) (hf : featfile ∈ featListOf env args.feats) :
    (run env args).error = none ∧
    Event.writeWav (args.outdir ++ "/" ++ featIdOf featfile ++ ".wav")
      (env.decodeMuLaw
        (env.fastGenerate (ModelParams.fresh args.seed (env.loadConfig args.config))
          (PyVal.longTensor (env.encodeMuLaw [0] (env.loadConfig args.config).n_quantize))
          ((scalerTransform (env.h5vec args.stats "/mean") (env.h5vec args.stats "/scale")
            (env.h5mat featfile "/feat")).transpose)
          (((scalerTransform (env.h5vec args.stats "/mean") (env.h5vec args.stats "/scale")
            (env.h5mat featfile "/feat")).transpose.ncols : Int) - 1))
        (env.loadConfig args.config).n_quantize)
      args.fs ∈ (run env args).events := by
  constructor
  · rw [run_success env args hgpu hout]
  · refine decodeItem_events_mem env args hgpu hout featfile hf _ ?_
    simp only [decodeLoopEvents, decodeItem, wavTransformMain, featTransformMain,
      List.mem_cons, List.not_mem_nil, or_false]
    right
    rfl

/-- Witness for C2 at a concrete environment and arguments. -/
theorem c2_pipeline_per_file_witness :
    testEnv.gpuAvailable = true ∧ testEnv.pathExists testArgs.outdir = false ∧
    "data/a.h5" ∈ featListOf testEnv testArgs.feats ∧
    ((run testEnv testArgs).error = none ∧
    Event.writeWav (testArgs.outdir ++ "/" ++ featIdOf "data/a.h5" ++ ".wav")
      (testEnv.decodeMuLaw
        (testEnv.fastGenerate
          (ModelParams.fresh testArgs.seed (testEnv.loadConfig testArgs.config))
          (PyVal.longTensor (testEnv.encodeMuLaw [0]
            (testEnv.loadConfig testArgs.config).n_quantize))
          ((scalerTransform (testEnv.h5vec testArgs.stats "/mean")
            (testEnv.h5vec testArgs.stats "/scale")
            (testEnv.h5mat "data/a.h5" "/feat")).transpose)
          (((scalerTransform (testEnv.h5vec testArgs.stats "/mean")
            (testEnv.h5vec testArgs.stats "/scale")
            (testEnv.h5mat "data/a.h5" "/feat")).transpose.ncols : Int) - 1))
        (testEnv.loadConfig testArgs.config).n_quantize)
      testArgs.fs ∈ (run testEnv testArgs).events) :=
  ⟨rfl, by decide, by decide,
   c2_pipeline_per_file testEnv testArgs rfl (by decide) "data/a.h5" (by decide)⟩

/-- C5: in every run that reaches the decode loop, the feature matrix handed
to the generation call for a file is the `/feat` matrix standardized by
the scaler whose mean and scale are the `/mean` and `/scale` arrays of
the `--stats` file (then transposed), and entrywise the standardization
subtracts the column mean and divides by the column scale. -/
theorem c5_features_standardized (env : Env) (args : Args)
    (hgpu : env.gpuAvailable = true) (hout : env.pathExists args.outdir = false)
    (featfile : String) (hf : featfile ∈ featListOf env args.feats)
    (i j : Nat) (hi : i < (env.h5mat featfile "/feat").data.length)
    (hj1 : j < ((env.h5mat featfile "/feat").data.getD i []).length)
    (hj2 : j < (env.h5vec args.stats "/mean").length)
    (hj3 : j < (env.h5vec args.stats "/scale").length) :
    (∃ x n, Event.generate (featIdOf featfile)
      (ModelParams.fresh args.seed (env.loadConfig args.config)) x
      ((scalerTransform (env.h5vec args.stats "/mean") (env.h5vec args.stats "/scale")
        (env.h5mat featfile "/feat")).transpose) n ∈ (run env args).events) ∧
    ((scalerTransform (env.h5vec args.stats "/mean") (env.h5vec args.stats "/scale")
        (env.h5mat featfile "/feat")).data.getD i []).getD j 0
      = (((env.h5mat featfile "/feat").data.getD i []).getD j 0
          - (env.h5vec args.stats "/mean").getD j 0)
        / (env.h5vec args.stats "/scale").getD j 0 := by
  constructor
  · refine ⟨PyVal.longTensor (env.encodeMuLaw [0] (env.loadConfig args.config).n_quantize),
      ((scalerTransform (env.h5vec args.stats "/mean") (env.h5vec args.stats "/scale")
        (env.h5mat featfile "/feat")).transpose.ncols : Int) - 1, ?_⟩
    refine decodeItem_events_mem env args hgpu hout featfile hf _ ?_
    simp only [decodeLoopEvents, decodeItem, wavTransformMain, featTransformMain,
      List.mem_cons, List.not_mem_nil, or_false]
    left
    rfl
  · exact scalerTransform_entry _ _ _ i j hi hj1 hj2 hj3

/-- Witness for C5 at a concrete environment: entry `(0,0)` of the
standardized matrix. -/
theorem c5_features_standardized_witness :
    testEnv.gpuAvailable = true ∧ testEnv.pathExists testArgs.outdir = false ∧
    "data/a.h5" ∈ featListOf testEnv testArgs.feats ∧
    ((scalerTransform (testEnv.h5vec testArgs.stats "/mean")
        (testEnv.h5vec testArgs.stats "/scale")
        (testEnv.h5mat "data/a.h5" "/feat")).data.getD 0 []).getD 0 0
      = (((testEnv.h5mat "data/a.h5" "/feat").data.getD 0 []).getD 0 0
          - (testEnv.h5vec testArgs.stats "/mean").getD 0 0)
        / (testEnv.h5vec testArgs.stats "/scale").getD 0 0 :=
  ⟨rfl, by decide, by decide,
   (c5_features_standardized testEnv testArgs rfl (by decide) "data/a.h5" (by decide)
     0 0 (by decide) (by decide) (by decide) (by decide)).2⟩

/-- C10: `decode_generator` yields exactly one item per feature file, in
order; for the `i`-th file the item is its feat id, the (optionally
transformed) single-zero-sample initial waveform, the transposed
(optionally speaker-code-extended and transformed) feature matrix, and
`n_samples = T - 1` where `T` is the frame count of the feature matrix
after the optional concatenation and transformation. -/
theorem c10_one_item_per_file (env : Env) (feat_list : List String)
    (wavT : Option (List ℚ → List Int)) (featT : Option (Mat → Mat)) (usc : Bool) :
    (decode_generator env feat_list wavT featT usc).length = feat_list.length ∧
    ∀ i, i < feat_list.length →
      (decode_generator env feat_list wavT featT usc).getD i default
        = (featIdOf (feat_list.getD i ""),
           (match wavT with
            | some f => PyVal.longTensor (f [0])
            | none => PyVal.npArr [0]),
           (match featT with
            | some f => f (if usc then
                concatSpeakerCode (env.h5mat (feat_list.getD i "") "/feat")
                  (env.h5vec (feat_list.getD i "") "/speaker_code")
              else env.h5mat (feat_list.getD i "") "/feat")
            | none => (if usc then
                concatSpeakerCode (env.h5mat (feat_list.getD i "") "/feat")
                  (env.h5vec (feat_list.getD i "") "/speaker_code")
              else env.h5mat (feat_list.getD i "") "/feat")).transpose,
           (((match featT with
            | some f => f (if usc then
                concatSpeakerCode (env.h5mat (feat_list.getD i "") "/feat")
                  (env.h5vec (feat_list.getD i "") "/speaker_code")
              else env.h5mat (feat_list.getD i "") "/feat")
            | none => (if usc then
                concatSpeakerCode (env.h5mat (feat_list.getD i "") "/feat")
                  (env.h5vec (feat_list.getD i "") "/speaker_code")
              else env.h5mat (feat_list.getD i "") "/feat")).nrows : Int) - 1)) := by
  refine ⟨by simp [decode_generator], ?_⟩
  intro i hi
  rw [List.getD_eq_getElem _ default (by simpa [decode_generator] using hi),
      List.getD_eq_getElem _ "" hi]
  simp only [decode_generator, List.getElem_map]
  rfl

/-- Witness for C10 at a concrete input. -/
theorem c10_one_item_per_file_witness :
    (decode_generator testEnv ["dir/a.h5"] none none false).length = 1 ∧
    (decode_generator testEnv ["dir/a.h5"] none none false).getD 0 default
      = (featIdOf (["dir/a.h5"].getD 0 ""), PyVal.npArr [0],
         (testEnv.h5mat (["dir/a.h5"].getD 0 "") "/feat").transpose,
         ((testEnv.h5mat (["dir/a.h5"].getD 0 "") "/feat").nrows : Int) - 1) :=
  ⟨(c10_one_item_per_file testEnv ["dir/a.h5"] none none false).1,
   (c10_one_item_per_file testEnv ["dir/a.h5"] none none false).2 0 (by decide)⟩

end DecodeScript
